import Mathlib

/-
Verification of the dialogue orchestration core of the think_first repository.

The embedding below translates the Django views and models that implement the
conversation state machine into pure Lean functions over an explicit state:

  - core/models.py          : Conversation, Interaction, ThinkingReview
  - core/views_helper.py    : _handle_chat_response, _handle_relativity_demo,
                              api_retry_last_message
  - core/views.py           : api_rollback_conversation, chat_view (initial state)
  - core/services/deepseek_service.py : DeepSeekService (modelled as an oracle:
                              the network results are inputs of each turn)

Machine-level conventions: Django auto-increment primary keys become a nextId
counter; the per-conversation interaction table becomes a list in insertion
order; JsonResponse payloads become a Response record; a Python function that
falls off its end without a return (yielding None, hence no HTTP reply) is
modelled by an Option Response result of none.
-/

namespace ThinkFirst

/-! ## Data model (core/models.py) -/

/-- Interaction.type choices (models.py, INTERACTION_TYPES). -/
inductive IKind
  | question
  | probe_answer
  | ai_image
  | user_interpretation
  | ai_feedback
  | review
  | user_synthesis
deriving DecidableEq, Repr

/-- Conversation.status choices (models.py, STATUS_CHOICES). The CharField is
only ever assigned one of these three values anywhere in the codebase. -/
inductive Phase
  | initial_probe
  | visual_loop
  | review
deriving DecidableEq, Repr

/-- One row of the Interaction table (models.py). Fields not supplied at a
given create() site default to none / false exactly as in the Django model. -/
structure Interaction where
  id : Nat
  kind : IKind
  text_content : String
  image_url : Option String := none
  image_prompt : Option String := none
  is_passed : Bool := false
deriving DecidableEq, Repr

/-- Conversation columns that the orchestration core reads or writes. -/
structure Conversation where
  topic : String
  status : Phase
  is_completed : Bool
deriving DecidableEq, Repr

/-- One row of the ThinkingReview table (models.py); thinking_path_json is the
ordered list of stage/description pairs. -/
structure Review where
  summary_text : String
  thinking_path : List (String × String)
  advice_text : String
deriving DecidableEq, Repr

/-- The persistent state of one conversation: its row, its interaction rows in
insertion order, its ThinkingReview rows (a OneToOneField, so the database
would admit at most one), and the next fresh auto-increment id. -/
structure State where
  conv : Conversation
  interactions : List Interaction
  reviews : List Review
  nextId : Nat
deriving DecidableEq, Repr

/-- The JSON body of a JsonResponse returned by the endpoints. -/
structure Response where
  status : String
  answer : Option String := none
  image_url : Option String := none
  desmos_latex : Option String := none
  challenge : Option String := none
deriving DecidableEq, Repr

/-! ## String primitives

Python string operations are modelled on the underlying character lists so
that every definition evaluates inside the kernel. -/

/-- Models Python str.startswith over character lists. -/
def charsStartWith : List Char → List Char → Bool
  | _, [] => true
  | [], _ :: _ => false
  | a :: as, b :: bs => a = b && charsStartWith as bs

/-- Models Python substring membership (pat in l) over character lists. -/
def charsContain (l pat : List Char) : Bool :=
  match l with
  | [] => charsStartWith [] pat
  | _ :: tl => charsStartWith l pat || charsContain tl pat

/-- Models the Python expression pat in s. -/
def strContains (s pat : String) : Bool :=
  charsContain s.data pat.data

/-- Models Python s.startswith(pat). -/
def strStarts (s pat : String) : Bool :=
  charsStartWith s.data pat.data

/-- Models the Python slice s[:n]. -/
def pyTake (n : Nat) (s : String) : String :=
  String.mk (s.data.take n)

/-- Models user_input.replace("？", "").replace("?", ""): the two replace
calls remove distinct single characters, which is one filter pass. -/
def stripQm (s : String) : String :=
  String.mk (s.data.filter (fun c => c ≠ '？' && c ≠ '?'))

/-! ## Reasoning / artifact gateway oracle (services/deepseek_service.py)

The external services are modelled as oracles: the outcome of each network
call is an input of the turn. What IS translated from the source is how each
outcome is turned into a string or a dict by the service methods. -/

/-- Outcome of one DeepSeekService.chat_completion call: missing or placeholder
API key, an exception from the client, or a successful completion (an empty
content models the falsy response the callers test with if not answer). -/
inductive ChatOutcome
  | keyMissing
  | apiError (e : String)
  | success (content : String)
deriving DecidableEq, Repr

/-- DeepSeekService.chat_completion (deepseek_service.py lines 15-32): a
missing key or a raised exception is converted into a nonempty string that
starts with Error:, and returned as if it were model content. -/
def chat_completion : ChatOutcome → String
  | .keyMissing => "Error: DeepSeek API Key not configured."
  | .apiError e => "Error: " ++ e
  | .success c => c

/-- The dict produced by DeepSeekService.analyze_user_input after JSON
parsing, with the caller-side .get defaults of views_helper.py already
applied: tool defaults to image_generation; absent visual_prompt,
visual_guide_text, desmos_latex, evaluation behave as the empty (falsy)
string; next_step_hint keeps its .get default separately. -/
structure Analysis where
  intent : String := "unknown"
  feedback : String := ""
  visual_prompt : String := ""
  visual_guide_text : String := ""
  tool : String := "image_generation"
  desmos_latex : String := ""
  fill_in_the_blank : String := "\x7b\x7d"
  evaluation : String := ""
  next_step_hint : Option String := none
deriving DecidableEq, Repr

/-- The oracle for one turn: results of the gateway calls the turn may make.
analysis = none models a classification reply that failed to parse as JSON. -/
structure Env where
  probe : ChatOutcome := .success ""
  chat : ChatOutcome := .success ""
  visual : ChatOutcome := .success ""
  gen_image : String := "/media/ai_images/generated.png"
  image_analysis : String := ""
  analysis : Option Analysis := none
deriving Repr

/-- DeepSeekService.analyze_user_input (deepseek_service.py lines 83-155):
on a parse failure it locally substitutes the dict with intent unknown and
feedback 解析失败. The prompt arguments only feed the external call. -/
def analyze_user_input (_question _user_input _context : String) (env : Env) : Analysis :=
  match env.analysis with
  | some a => a
  | none => { intent := "unknown", feedback := "解析失败" }

/-- DeepSeekService.generate_initial_probe: a plain chat_completion whose
prompt embeds the user question. -/
def generate_initial_probe (_user_question : String) (o : ChatOutcome) : String :=
  chat_completion o

/-- DeepSeekService.generate_visual_prompt: a plain chat_completion whose
prompt embeds the question and current thought. -/
def generate_visual_prompt (_question _thought : String) (o : ChatOutcome) : String :=
  chat_completion o

/-! ## Interaction log primitives -/

/-- Interaction.objects.create for this conversation: appends a fresh row
with the next auto-increment id. -/
def appendI (s : State) (k : IKind) (txt : String)
    (url : Option String := none) (prompt : Option String := none) : State :=
  { s with
    interactions := s.interactions ++
      [{ id := s.nextId, kind := k, text_content := txt,
         image_url := url, image_prompt := prompt }],
    nextId := s.nextId + 1 }

/-- Models conversation.interactions.last().text_content = txt; .save()
(views_helper.py lines 263-264). On an empty log Python would crash; the
call sites always run right after a create, so the none case is inert. -/
def patchLastText (s : State) (txt : String) : State :=
  match s.interactions.getLast? with
  | none => s
  | some i =>
      { s with interactions := s.interactions.dropLast ++ [{ i with text_content := txt }] }

/-- Models current_user_interaction.is_passed = True; .save() guarded by
if current_user_interaction (views_helper.py lines 291-294). -/
def patchLastPassed (s : State) : State :=
  match s.interactions.getLast? with
  | none => s
  | some i =>
      { s with interactions := s.interactions.dropLast ++ [{ i with is_passed := true }] }

/-- The inline tagged JSON block for a fill-in-the-blank challenge payload,
json.dumps of the dict built at views_helper.py lines 245-248 (serialization
modelled structurally). -/
def challengeJson (fillData : String) : String :=
  "\x7b\"type\": \"fill_in_the_blank\", \"data\": " ++ fillData ++ "\x7d"

/-- Models json.dumps of a final_review dict with a single thinking-path stage
(serialization modelled structurally). -/
def reviewJson (summary stage desc advice : String) : String :=
  "\x7b\"summary\": \"" ++ summary ++ "\", \"thinking_path\": [\x7b\"stage\": \"" ++
    stage ++ "\", \"description\": \"" ++ desc ++ "\"\x7d], \"advice\": \"" ++ advice ++ "\"\x7d"

/-- The Django type string of an interaction kind, as interpolated into the
context window (f-string over Interaction.type). -/
def kindName : IKind → String
  | .question => "question"
  | .probe_answer => "probe_answer"
  | .ai_image => "ai_image"
  | .user_interpretation => "user_interpretation"
  | .ai_feedback => "ai_feedback"
  | .review => "review"
  | .user_synthesis => "user_synthesis"

/-- Context line for one interaction: f"{i.type}: {i.text_content or i.image_prompt}"
(Python or: the prompt is used when the text is falsy; a missing prompt
prints as None). -/
def contextLine (i : Interaction) : String :=
  kindName i.kind ++ ": " ++
    (if i.text_content ≠ "" then i.text_content else i.image_prompt.getD "None")

/-- Models the Python newline join over a list of lines. -/
def joinLines : List String → String
  | [] => ""
  | [l] => l
  | l :: ls => l ++ "\n" ++ joinLines ls

/-! ## The demo script (views_helper.py, _handle_relativity_demo) -/

/-- Models _handle_relativity_demo: the scripted relativity walkthrough, keyed by the
count of prior ai_feedback/ai_image interactions. Note that the finish step
sets the completed flag without creating any ThinkingReview row. -/
def handle_relativity_demo (s : State) (user_input : String) (is_start : Bool)
    (uploaded_image_url : Option String) (env : Env) : State × Option Response :=
  let step := (s.interactions.filter
    (fun i => i.kind = .ai_feedback ∨ i.kind = .ai_image)).length
  if is_start then
    let s := { s with conv :=
      { s.conv with topic := "[DEMO] Relativity", status := .visual_loop } }
    let s := appendI s .question user_input
    let answer := "我们忘掉那些复杂的公式。想象我们要从零开始构建一个宇宙。准备好了吗？"
    let s := appendI s .ai_feedback answer
    (s, some { status := "success", answer := some answer })
  else
    let s := appendI s .user_interpretation user_input uploaded_image_url
    if step = 1 then
      let prompt := "Minimalist abstract art. An infinite, perfectly flat white grid lines on light gray background. 2D plane. Nothing else. Clean, scientific style."
      let text := "第一步：这是宇宙的初始状态，一片绝对平坦、空无一物的空间。\n\n**提问**：如果在这个绝对平坦的表面上，你向前方滚出一颗弹珠，它会怎么运动？会停下来，还是永远走直线？"
      let image_url := env.gen_image
      let s := appendI s .ai_image text (some image_url) (some prompt)
      (s, some { status := "success", answer := some text, image_url := some image_url })
    else if step = 2 then
      let prompt := "Minimalist 3D render. A heavy, dark matte sphere sitting in the center of a white grid. The grid lines bend and sink deeply underneath the sphere's weight, creating a funnel shape or gravity well. High contrast."
      let text := "现在，我们在中心放入一个极重的星球（比如太阳）。\n\n**观察**：请仔细看它周围的网格。发生了什么变化？那个原本平坦的舞台现在变得怎么样了？"
      let image_url := env.gen_image
      let s := appendI s .ai_image text (some image_url) (some prompt)
      (s, some { status := "success", answer := some text, image_url := some image_url })
    else if step = 3 then
      let prompt := "Minimalist physics diagram. Top-down view. A large central mass distorting the grid. A small marble is rolling past it. The path of the marble curves towards the center, following the bent grid lines. Dashed line showing the path."
      let text := "关键时刻来了。现在有一颗小行星飞过。它本想继续走直线，但地面已经塌陷了。\n\n**思考**：它的路径看起来会是怎样的？看起来像是被太阳‘吸’过去了吗？还是它只是在顺着弯路走？"
      let image_url := env.gen_image
      let s := appendI s .ai_image text (some image_url) (some prompt)
      (s, some { status := "success", answer := some text, image_url := some image_url })
    else if step = 4 then
      let guide_text := "没错。这就是爱因斯坦的洞见：根本没有看不见的‘拉力’。小行星只是在弯曲的空间里试图走直线而已。"
      let challenge_payload := challengeJson "\x7b\"question\": \"引力的本质不是力，而是 ___ 的弯曲。\", \"correct_answer\": \"时空\", \"hint\": \"时间和空间...\"\x7d"
      let full_content := guide_text ++ "\n<CHALLENGE>" ++ challenge_payload ++ "</CHALLENGE>"
      let s := appendI s .ai_feedback full_content
      (s, some { status := "success", answer := some guide_text,
                 challenge := some challenge_payload })
    else
      let guide_text := "你已经掌握了广义相对论的核心：**物质告诉时空如何弯曲，时空告诉物质如何运动**。\n\n这就是为什么我们不再需要‘引力’这个概念，我们只需要几何学。"
      let s := { s with conv := { s.conv with is_completed := true } }
      let s := appendI s .ai_feedback guide_text
      (s, some { status := "success",
                 answer := some (guide_text ++ "<FINAL_REVIEW>" ++
                   reviewJson ("通过构建空间模型，你领悟了引力即几何。") ("Done")
                     ("Relativity Demo Completed")
                     ("下次看到苹果落地，试着想象一下空间本身的滑梯。") ++ "</FINAL_REVIEW>") })

/-! ## The turn processor (views_helper.py, _handle_chat_response) -/

/-- The initial_probe branch (views_helper.py lines 86-115). -/
def initial_probe_branch (s : State) (user_input : String)
    (uploaded_image_url : Option String) (env : Env) : State × Option Response :=
  let s1 := appendI s .question user_input uploaded_image_url
  let answer :=
    if uploaded_image_url.isSome then
      "我看到了你上传的图片。AI分析结果：" ++ env.image_analysis ++
        "\n\n基于此，你有什么想进一步探讨的问题吗？"
    else
      let answer0 := generate_initial_probe user_input env.probe
      if answer0 = "" then "收到。关于这个问题，你现在有什么初步的想法或直觉吗？" else answer0
  let s2 := appendI s1 .ai_feedback answer
  let s3 := { s2 with conv :=
    { s2.conv with status := .visual_loop, topic := pyTake 30 user_input } }
  (s3, some { status := "success", answer := some answer })

/-- The classification of the user turn in the visual loop (views_helper.py
line 122): a probe_answer when the immediately preceding entry is ai_feedback,
a user_interpretation otherwise. -/
def userTurnKind (last_interaction : Option Interaction) : IKind :=
  match last_interaction with
  | some li => if li.kind = .ai_feedback then .probe_answer else .user_interpretation
  | none => .user_interpretation

/-- The intent dispatch of the visual_loop branch (views_helper.py lines
172-312): the if/elif chain over the classified intent, acting on the state
s1 that already holds the logged user turn. The chain has no else of its
own: an unmatched intent falls past it and the Python function ends without
returning, modelled by the final none. -/
def visual_dispatch (s1 : State) (user_input : String) (a : Analysis) (env : Env) :
    State × Option Response :=
  let intent := a.intent
  let visual_guide_text := a.visual_guide_text
  if intent = "probe_deeper" then
    let guide_text := visual_guide_text
    let guide_text :=
      if guide_text = "" ∨ guide_text = "没关系。试着想象一下，如果我们改变一个条件..." then
        -- a focused follow-up prompt is built from user_input and the topic
        -- and sent through chat_completion (views_helper.py lines 184-193)
        chat_completion env.chat
      else guide_text
    let s2 := appendI s1 .ai_feedback guide_text
    (s2, some { status := "success", answer := some guide_text })
  else if intent = "no_idea" ∨ intent = "has_idea" then
    if a.tool = "desmos" then
      let latex := a.desmos_latex
      let guide_text :=
        if visual_guide_text ≠ "" then visual_guide_text
        else "这是一个数学函数图像，试着调整参数看看会发生什么？"
      let s2 := appendI s1 .ai_image guide_text none (some ("DESMOS: " ++ latex))
      (s2, some { status := "success", answer := some guide_text,
                  desmos_latex := some latex })
    else
      let prompt :=
        if a.visual_prompt ≠ "" then a.visual_prompt
        else generate_visual_prompt s1.conv.topic
          (if intent = "has_idea" then user_input else "Concept of " ++ s1.conv.topic)
          env.visual
      let image_url := env.gen_image
      let guide_text :=
        if visual_guide_text ≠ "" then visual_guide_text
        else "这是一张为你生成的视觉线索图。请仔细观察它，你看到了什么？这与你的问题有什么联系？"
      let s2 := appendI s1 .ai_image guide_text (some image_url) (some prompt)
      (s2, some { status := "success", answer := some guide_text,
                  image_url := some image_url })
  else if intent = "verify_understanding" then
    let fill_data := a.fill_in_the_blank
    let guide_text :=
      if visual_guide_text ≠ "" then visual_guide_text
      else "看来你已经抓住关键了。来做一个小测试验证一下你的理解。"
    let challenge_payload := challengeJson fill_data
    let s2 := appendI s1 .ai_feedback guide_text
    let full_content := guide_text ++ "\n<CHALLENGE>" ++ challenge_payload ++ "</CHALLENGE>"
    let s3 := patchLastText s2 full_content
    (s3, some { status := "success", answer := some guide_text,
                challenge := some challenge_payload })
  else if intent = "finish" then
    let s2 := { s1 with conv := { s1.conv with status := .review } }
    let guide_text := "你已经完成了整个视觉探索旅程。现在，请试着用一句话总结：为什么会有石油？（这是最后一步，请给出你的定义）"
    let s3 := appendI s2 .ai_feedback guide_text
    (s3, some { status := "success", answer := some guide_text })
  else if intent = "explaining_image" then
    if a.evaluation = "pass" then
      -- the source comment reads Mark the current user interaction as passed:
      -- interactions.last() is the user turn logged above, not the prior ai_image
      let s2 := patchLastPassed s1
      let prompt :=
        if a.visual_prompt ≠ "" then a.visual_prompt
        else generate_visual_prompt s1.conv.topic ("Next step after: " ++ user_input) env.visual
      let image_url := env.gen_image
      let guide_text :=
        if visual_guide_text ≠ "" then visual_guide_text
        else "很有趣的解读。现在，让我们看看下一张图，它揭示了更深的一层含义..."
      let s3 := appendI s2 .ai_image guide_text (some image_url) (some prompt)
      (s3, some { status := "success", answer := some guide_text,
                  image_url := some image_url })
    else
      let hint := a.next_step_hint.getD "请再仔细看看。"
      let s2 := appendI s1 .ai_feedback hint
      (s2, some { status := "success", answer := some hint })
  else
    (s1, none)

/-- The visual_loop branch (views_helper.py lines 118-312): classifies and
logs the user turn, short-circuits to image analysis when an image was
uploaded, otherwise builds the five-entry context window, classifies the
intent and dispatches on it. -/
def visual_loop_branch (s : State) (user_input : String)
    (uploaded_image_url : Option String) (env : Env) : State × Option Response :=
  let last_interaction := s.interactions.getLast?
  let user_interaction_type := userTurnKind last_interaction
  let s1 :=
    if user_input ≠ "" ∨ uploaded_image_url.isSome then
      appendI s user_interaction_type user_input uploaded_image_url
    else s
  if uploaded_image_url.isSome then
    let analysis := env.image_analysis
    let s2 := appendI s1 .ai_feedback analysis
    (s2, some { status := "success", answer := some analysis })
  else
    let recent := (s1.interactions.reverse.take 5).reverse
    let context := joinLines (recent.map contextLine)
    visual_dispatch s1 user_input
      (analyze_user_input s1.conv.topic user_input context env) env

/-- The final-synthesis review branch (views_helper.py lines 315-342). It is
dead code: the guard at line 82 already returned for every review-status
conversation, so this elif can never be entered; it is kept faithful to the
source. The advice text embeds the user text between ASCII apostrophes. -/
def review_synthesis_branch (s : State) (user_input : String) : State × Option Response :=
  let s1 := appendI s .user_synthesis user_input
  let summary := "你通过观察与推理，最终得出了结论。"
  let advice := "你的总结：\x27" ++ user_input ++ "\x27 抓住了核心。保持这种观察力。"
  let s2 := { s1 with conv := { s1.conv with is_completed := true } }
  let s3 := { s2 with reviews := s2.reviews ++
    [{ summary_text := summary,
       thinking_path := [("Done", "User synthesized the answer.")],
       advice_text := advice }] }
  (s3, some { status := "success",
              answer := some ("<FINAL_REVIEW>" ++
                reviewJson summary ("Done") ("User synthesized the answer.") advice ++
                "</FINAL_REVIEW>") })

/-- Models _handle_chat_response (views_helper.py lines 49-346): the turn processor.
imageFile is the uploaded-image URL when an upload succeeded (save_uploaded_file
returns a pair of none on failure, indistinguishable here from no upload).
The trailing else of the status dispatch (lines 344-346, the generic
我不太理解 reply) guards against a status outside the three enumerated values
and has no counterpart here because Phase can only be those three values. -/
def handle_chat_response (s : State) (userInput0 : String)
    (imageFile : Option String) (env : Env) : State × Option Response :=
  let uploaded_image_url := imageFile
  -- fallback text if only an image was provided
  let user_input :=
    if userInput0 = "" ∧ uploaded_image_url.isSome then "[用户上传了一张图片]" else userInput0
  -- DEMO MODE CHECK: trigger 1 is the explicit phrase, trigger 2 fires only
  -- while at most one interaction exists (the first user message)
  let trigRes :=
    if strContains (stripQm user_input) ("广义相对论是什么") then (true, "为什么会有引力？")
    else if s.interactions.length ≤ 1 ∧
        (strContains user_input ("引力") ∨ strContains user_input ("相对论")) then
      (true, user_input)
    else (false, user_input)
  let is_demo_trigger := trigRes.1
  let user_input := trigRes.2
  if is_demo_trigger ∨ strStarts s.conv.topic ("[DEMO]") then
    handle_relativity_demo s user_input is_demo_trigger uploaded_image_url env
  else if s.conv.status = .review then
    -- the early review short-circuit (line 82): it fires for every
    -- review-status conversation, completed or not
    (s, some { status := "success", answer := some "思考已完成。" })
  else
    match s.conv.status with
    | .initial_probe => initial_probe_branch s user_input uploaded_image_url env
    | .visual_loop => visual_loop_branch s user_input uploaded_image_url env
    | .review => review_synthesis_branch s user_input

/-! ## Retry and rollback (views_helper.py lines 11-45, views.py lines 191-219) -/

/-- Models api_retry_last_message: when the last entry is one of the three user
kinds it is deleted and its text is re-processed; otherwise a signaled
no-op. -/
def api_retry_last_message (s : State) (env : Env) : State × Option Response :=
  match s.interactions.getLast? with
  | some li =>
      if li.kind = .question ∨ li.kind = .probe_answer ∨ li.kind = .user_interpretation then
        let user_input := li.text_content
        let s1 := { s with interactions := s.interactions.dropLast }
        handle_chat_response s1 user_input none env
      else (s, some { status := "no_need_to_retry" })
  | none => (s, some { status := "no_need_to_retry" })

/-- Models api_rollback_conversation: deletes every interaction with id strictly
greater than the target (Django ids are the insertion order), then resets a
review-status or completed conversation back to visual_loop. A target id
that does not belong to the conversation is a 404 caught by the handler:
no mutation. -/
def api_rollback_conversation (s : State) (interaction_id : Nat) : State × Response :=
  if s.interactions.any (fun i => i.id = interaction_id) then
    let s1 := { s with interactions := s.interactions.filter (fun i => i.id ≤ interaction_id) }
    let s2 :=
      if s1.conv.status = .review ∨ s1.conv.is_completed then
        { s1 with conv := { s1.conv with status := .visual_loop, is_completed := false } }
      else s1
    (s2, { status := "success" })
  else (s, { status := "error" })

/-! ## Reachability -/

/-- A fresh conversation as chat_view creates it (views.py lines 122-144):
empty topic, initial_probe, a single greeting ai_feedback interaction. -/
def initState : State :=
  { conv := { topic := "", status := .initial_probe, is_completed := false },
    interactions := [{ id := 0, kind := .ai_feedback, text_content := "你好。我是你的辅助思考助手。请告诉我，你遇到了哪道题？或者想弄懂什么概念？" }],
    reviews := [],
    nextId := 1 }

/-- One externally triggerable operation on a conversation. -/
inductive DialogStep : State → State → Prop
  | send (s : State) (t : String) (img : Option String) (env : Env) :
      DialogStep s (handle_chat_response s t img env).1
  | retry (s : State) (env : Env) :
      DialogStep s (api_retry_last_message s env).1
  | rollback (s : State) (tid : Nat) :
      DialogStep s (api_rollback_conversation s tid).1

/-- States of a conversation reachable from its creation. -/
inductive Reachable : State → Prop
  | init : Reachable initState
  | step {s s' : State} : Reachable s → DialogStep s s' → Reachable s'

/-! ## Log-shape vocabulary -/

/-- The insertion ids of the log, in log order. -/
def idsOf (s : State) : List Nat := s.interactions.map (fun i => i.id)

/-- State b extends state a by appending only: the log of b is the log of a
followed by fresh entries whose ids are new, increasing, and below the new
auto-increment counter. Mutation of an existing entry in place (the
passed-marker or a text patch) keeps its id, so it is allowed here. -/
def StepAppend (a b : State) : Prop :=
  a.nextId ≤ b.nextId ∧
    ∃ ns, idsOf b = idsOf a ++ ns ∧ ns.Pairwise (· < ·) ∧
      ∀ n ∈ ns, a.nextId ≤ n ∧ n < b.nextId

/-- Well-formed log: ids strictly increase along the log and stay below the
auto-increment counter. -/
def WF (s : State) : Prop :=
  (idsOf s).Pairwise (· < ·) ∧ ∀ n ∈ idsOf s, n < s.nextId

/-! ## Concrete scenario states

Named environments and the states a few short user sessions lead to; these
serve as concrete inputs for witnesses and counterexamples. -/

/-- An oracle whose classification fails to parse and whose chat completions
are empty (every caller-side fallback fires). -/
def env0 : Env := {}

/-- An oracle classifying the turn as finish. -/
def envFinish : Env := { analysis := some { intent := "finish" } }

/-- An oracle classifying the turn as probe_deeper with a guide question. -/
def envProbe : Env :=
  { analysis := some { intent := "probe_deeper", visual_guide_text := "那你觉得雨后的天空为什么更蓝？" } }

/-- An oracle classifying the turn as has_idea with an image request. -/
def envIdea : Env :=
  { analysis := some { intent := "has_idea", visual_prompt := "light scattering in the atmosphere, cinematic", visual_guide_text := "看看这张图，你注意到了什么？" } }

/-- An oracle classifying the turn as explaining_image with a pass verdict. -/
def envPass : Env :=
  { analysis := some { intent := "explaining_image", evaluation := "pass", visual_prompt := "the next scene", visual_guide_text := "下一张图" } }

/-- After the first user question: visual_loop, log = greeting, question,
ai_feedback, nextId 3. -/
def trace1 : State := (handle_chat_response initState ("为什么天是蓝色的") none env0).1

/-- After a finish-classified turn on trace1: status review, completed flag
still clear, log of five entries. -/
def trace2 : State := (handle_chat_response trace1 ("我觉得我懂了") none envFinish).1

/-- Rollback of trace1 to its question entry (id 1): log = greeting,
question; the last entry is now user-authored. -/
def rolled1 : State := (api_rollback_conversation trace1 1).1

/-- A has_idea turn on trace1: appends a probe_answer and an ai_image. -/
def visual1 : State := (handle_chat_response trace1 ("我觉得跟光有关") none envIdea).1

/-- An explaining_image pass turn on visual1. -/
def visual2 : State := (handle_chat_response visual1 ("光被空气散射开了") none envPass).1

/-- Demo session, step 1: the first question mentions 引力, so the scripted
relativity mode starts. -/
def demo1 : State := (handle_chat_response initState ("为什么会有引力？") none env0).1

/-- Demo session after one more turn. -/
def demo2 : State := (handle_chat_response demo1 ("继续") none env0).1

/-- Demo session after two more turns. -/
def demo3 : State := (handle_chat_response demo2 ("继续") none env0).1

/-- Demo session after three more turns. -/
def demo4 : State := (handle_chat_response demo3 ("继续") none env0).1

/-- Demo session at the scripted finish step: the completed flag is set. -/
def demo5 : State := (handle_chat_response demo4 ("继续") none env0).1

/-- An oracle whose reasoning backend is misconfigured (API key unset). -/
def envKeyMissing : Env := { probe := .keyMissing }

/-- An oracle whose reasoning backend raises a network error. -/
def envNetErr : Env := { probe := .apiError "Connection refused" }

/-!
# Theorems

First a layer of small lemmas about the log primitives, then the per-branch
structure lemmas, then one theorem (plus witness or counterexample) per
specification claim.
-/

/-- Helper: a list whose optional last element is known decomposes as its
dropLast followed by that element. -/
theorem dropLast_concat_getLast {α : Type} {l : List α} {x : α}
    (h : l.getLast? = some x) : l.dropLast ++ [x] = l := by
  have hne : l ≠ [] := by
    intro he
    rw [he] at h
    simp at h
  rw [List.getLast?_eq_getLast l hne] at h
  simp only [Option.some.injEq] at h
  rw [← h]
  exact List.dropLast_append_getLast hne

/-- Helper: the possible results of userTurnKind. -/
theorem userTurnKind_cases (o : Option Interaction) :
    userTurnKind o = .probe_answer ∨ userTurnKind o = .user_interpretation := by
  rcases o with _ | li
  · right; rfl
  · by_cases h : li.kind = .ai_feedback
    · left; simp [userTurnKind, h]
    · right; simp [userTurnKind, h]

/-- Appending leaves the review table unchanged. -/
theorem reviews_appendI (s : State) (k : IKind) (t : String)
    (u p : Option String) : (appendI s k t u p).reviews = s.reviews := rfl

/-- Patching the last text leaves the review table unchanged. -/
theorem reviews_patchT (s : State) (t : String) :
    (patchLastText s t).reviews = s.reviews := by
  unfold patchLastText
  cases h : s.interactions.getLast? <;> simp

/-- Patching the passed-marker leaves the review table unchanged. -/
theorem reviews_patchP (s : State) :
    (patchLastPassed s).reviews = s.reviews := by
  unfold patchLastPassed
  cases h : s.interactions.getLast? <;> simp

/-- Patching the last text leaves the conversation row unchanged. -/
theorem conv_patchT (s : State) (t : String) :
    (patchLastText s t).conv = s.conv := by
  unfold patchLastText
  cases h : s.interactions.getLast? <;> simp

/-- Patching the passed-marker leaves the conversation row unchanged. -/
theorem conv_patchP (s : State) :
    (patchLastPassed s).conv = s.conv := by
  unfold patchLastPassed
  cases h : s.interactions.getLast? <;> simp

/-- Patching the last text keeps the id sequence. -/
theorem idsOf_patchT (s : State) (t : String) :
    idsOf (patchLastText s t) = idsOf s := by
  unfold patchLastText
  cases h : s.interactions.getLast? with
  | none => rfl
  | some i =>
      simp only [idsOf]
      conv_rhs => rw [← dropLast_concat_getLast h]
      simp

/-- Patching the passed-marker keeps the id sequence. -/
theorem idsOf_patchP (s : State) :
    idsOf (patchLastPassed s) = idsOf s := by
  unfold patchLastPassed
  cases h : s.interactions.getLast? with
  | none => rfl
  | some i =>
      simp only [idsOf]
      conv_rhs => rw [← dropLast_concat_getLast h]
      simp

/-- Patching the last text keeps the id counter. -/
theorem nextId_patchT (s : State) (t : String) :
    (patchLastText s t).nextId = s.nextId := by
  unfold patchLastText
  cases h : s.interactions.getLast? <;> simp

/-- Patching the passed-marker keeps the id counter. -/
theorem nextId_patchP (s : State) :
    (patchLastPassed s).nextId = s.nextId := by
  unfold patchLastPassed
  cases h : s.interactions.getLast? <;> simp

/-- Appending produces the old ids followed by the fresh id. -/
theorem idsOf_appendI (s : State) (k : IKind) (t : String) (u p : Option String) :
    idsOf (appendI s k t u p) = idsOf s ++ [s.nextId] := by
  simp [idsOf, appendI]

/-- StepAppend is reflexive. -/
theorem sa_base (s : State) : StepAppend s s :=
  ⟨le_refl _, [], by simp, by simp, by simp⟩

/-- StepAppend is transitive. -/
theorem sa_trans {a b c : State} (h1 : StepAppend a b) (h2 : StepAppend b c) :
    StepAppend a c := by
  obtain ⟨hn1, ns1, hi1, hp1, hb1⟩ := h1
  obtain ⟨hn2, ns2, hi2, hp2, hb2⟩ := h2
  refine ⟨le_trans hn1 hn2, ns1 ++ ns2, ?_, ?_, ?_⟩
  · rw [hi2, hi1, List.append_assoc]
  · rw [List.pairwise_append]
    refine ⟨hp1, hp2, fun x hx y hy => ?_⟩
    exact lt_of_lt_of_le (hb1 x hx).2 (hb2 y hy).1
  · intro n hn
    rcases List.mem_append.1 hn with h | h
    · exact ⟨(hb1 n h).1, lt_of_lt_of_le (hb1 n h).2 hn2⟩
    · exact ⟨le_trans hn1 (hb2 n h).1, (hb2 n h).2⟩

/-- A state with the same ids and counter is interchangeable on the right of
StepAppend. -/
theorem sa_of_same {a b : State} (h : StepAppend a b) {c : State}
    (hi : idsOf c = idsOf b) (hn : c.nextId = b.nextId) : StepAppend a c := by
  obtain ⟨hn1, ns, hi1, hp, hb⟩ := h
  refine ⟨hn ▸ hn1, ns, ?_, hp, ?_⟩
  · rw [hi, hi1]
  · intro n hm
    exact ⟨(hb n hm).1, hn ▸ (hb n hm).2⟩

/-- Appending one entry is a StepAppend extension. -/
theorem sa_app {a b : State} (h : StepAppend a b) {k : IKind} {t : String}
    {u p : Option String} : StepAppend a (appendI b k t u p) := by
  refine sa_trans h ⟨Nat.le_succ _, [b.nextId], idsOf_appendI b k t u p, by simp, ?_⟩
  intro n hn
  simp only [List.mem_singleton] at hn
  subst hn
  exact ⟨le_refl _, by simp [appendI]⟩

/-- Patching the last text is a StepAppend extension. -/
theorem sa_patchT {a b : State} (h : StepAppend a b) {t : String} :
    StepAppend a (patchLastText b t) :=
  sa_of_same h (idsOf_patchT b t) (nextId_patchT b t)

/-- Patching the passed-marker is a StepAppend extension. -/
theorem sa_patchP {a b : State} (h : StepAppend a b) :
    StepAppend a (patchLastPassed b) :=
  sa_of_same h (idsOf_patchP b) (nextId_patchP b)

/-- Updating the conversation row is a StepAppend extension. -/
theorem sa_conv {a b : State} (h : StepAppend a b) {c : Conversation} :
    StepAppend a { b with conv := c } :=
  sa_of_same h rfl rfl

/-- Updating the review table is a StepAppend extension. -/
theorem sa_rev {a b : State} (h : StepAppend a b) {r : List Review} :
    StepAppend a { b with reviews := r } :=
  sa_of_same h rfl rfl

/-! ## Per-branch structure lemmas -/

/-- The demo script only appends to the log. -/
theorem demo_sa (s : State) (t : String) (st : Bool) (u : Option String)
    (env : Env) : StepAppend s (handle_relativity_demo s t st u env).1 := by
  unfold handle_relativity_demo
  simp only []
  repeat' split
  all_goals
    first
      | exact sa_app (sa_app (sa_conv (sa_base s)))
      | exact sa_app (sa_app (sa_base s))
      | exact sa_app (sa_conv (sa_app (sa_base s)))
      | exact sa_app (sa_base s)

/-- The initial_probe branch only appends to the log. -/
theorem initial_sa (s : State) (t : String) (u : Option String) (env : Env) :
    StepAppend s (initial_probe_branch s t u env).1 := by
  unfold initial_probe_branch
  simp only []
  exact sa_conv (sa_app (sa_app (sa_base s)))

/-- The intent dispatch only appends to the log or mutates an entry in
place. -/
theorem dispatch_sa (s1 : State) (ui : String) (a : Analysis) (env : Env) :
    StepAppend s1 (visual_dispatch s1 ui a env).1 := by
  unfold visual_dispatch
  simp only []
  repeat' split
  all_goals
    first
      | exact sa_base s1
      | exact sa_app (sa_base s1)
      | exact sa_patchT (sa_app (sa_base s1))
      | exact sa_app (sa_patchP (sa_base s1))
      | exact sa_app (sa_conv (sa_base s1))

/-- The visual_loop branch only appends to the log or mutates an entry in
place. -/
theorem visual_sa (s : State) (t : String) (u : Option String) (env : Env) :
    StepAppend s (visual_loop_branch s t u env).1 := by
  unfold visual_loop_branch
  simp only []
  repeat' split
  all_goals
    first
      | exact sa_app (sa_app (sa_base s))
      | exact sa_app (sa_base s)
      | exact sa_trans (sa_app (sa_base s)) (dispatch_sa ..)
      | exact sa_trans (sa_base s) (dispatch_sa ..)

/-- The dead review-synthesis branch only appends to the log. -/
theorem reviewb_sa (s : State) (t : String) :
    StepAppend s (review_synthesis_branch s t).1 := by
  unfold review_synthesis_branch
  simp only []
  exact sa_rev (sa_conv (sa_app (sa_base s)))

/-- A processed turn only appends to the log (or mutates an entry in place):
no existing entry is deleted or reordered. -/
theorem handle_sa (s : State) (t : String) (img : Option String) (env : Env) :
    StepAppend s (handle_chat_response s t img env).1 := by
  unfold handle_chat_response
  simp only []
  repeat' split
  all_goals
    first
      | exact demo_sa ..
      | exact sa_base s
      | exact initial_sa ..
      | exact visual_sa ..
      | exact reviewb_sa ..

/-- The demo script never writes the review table. -/
theorem demo_reviews (s : State) (t : String) (st : Bool) (u : Option String)
    (env : Env) : (handle_relativity_demo s t st u env).1.reviews = s.reviews := by
  unfold handle_relativity_demo
  simp only []
  repeat' split
  all_goals simp [reviews_appendI]

/-- The initial_probe branch never writes the review table. -/
theorem initial_reviews (s : State) (t : String) (u : Option String) (env : Env) :
    (initial_probe_branch s t u env).1.reviews = s.reviews := by
  unfold initial_probe_branch
  simp only []
  simp [reviews_appendI]

/-- The intent dispatch never writes the review table. -/
theorem dispatch_reviews (s1 : State) (ui : String) (a : Analysis) (env : Env) :
    (visual_dispatch s1 ui a env).1.reviews = s1.reviews := by
  unfold visual_dispatch
  simp only []
  repeat' split
  all_goals simp [reviews_appendI, reviews_patchT, reviews_patchP]

/-- The visual_loop branch never writes the review table. -/
theorem visual_reviews (s : State) (t : String) (u : Option String) (env : Env) :
    (visual_loop_branch s t u env).1.reviews = s.reviews := by
  unfold visual_loop_branch
  simp only []
  repeat' split
  all_goals simp [reviews_appendI, dispatch_reviews]

/-- A processed turn never writes the review table: the only branch that
would (the final-synthesis branch) sits behind the earlier review-status
short-circuit and is dead. -/
theorem handle_reviews (s : State) (t : String) (img : Option String)
    (env : Env) : (handle_chat_response s t img env).1.reviews = s.reviews := by
  unfold handle_chat_response
  simp only []
  repeat' split
  all_goals
    first
      | exact demo_reviews ..
      | rfl
      | exact initial_reviews ..
      | exact visual_reviews ..
      | simp_all

/-! ## Retry and rollback structure lemmas -/

/-- Retry never writes the review table. -/
theorem retry_reviews (s : State) (env : Env) :
    (api_retry_last_message s env).1.reviews = s.reviews := by
  unfold api_retry_last_message
  simp only []
  repeat' split
  · exact handle_reviews ..
  · rfl
  · rfl

/-- Rollback never writes the review table. -/
theorem rollback_reviews (s : State) (tid : Nat) :
    (api_rollback_conversation s tid).1.reviews = s.reviews := by
  unfold api_rollback_conversation
  simp only []
  repeat' split
  all_goals rfl

/-- A StepAppend extension of a well-formed state is well-formed. -/
theorem wf_of_sa {a b : State} (hw : WF a) (h : StepAppend a b) : WF b := by
  obtain ⟨hp, hb⟩ := hw
  obtain ⟨hn, ns, hi, hpns, hbns⟩ := h
  constructor
  · rw [hi, List.pairwise_append]
    exact ⟨hp, hpns, fun x hx y hy => lt_of_lt_of_le (hb x hx) (hbns y hy).1⟩
  · intro n hnm
    rw [hi] at hnm
    rcases List.mem_append.1 hnm with hm | hm
    · exact lt_of_lt_of_le (hb n hm) hn
    · exact (hbns n hm).2

/-- Dropping the last log entry preserves well-formedness. -/
theorem wf_dropLast {s : State} (h : WF s) :
    WF { s with interactions := s.interactions.dropLast } := by
  obtain ⟨hp, hb⟩ := h
  constructor
  · have hp2 := List.pairwise_map.1 hp
    exact List.pairwise_map.2 (hp2.sublist (List.dropLast_sublist s.interactions))
  · intro n hn
    apply hb
    simp only [idsOf, List.mem_map] at hn ⊢
    obtain ⟨i, hi, hin⟩ := hn
    exact ⟨i, (List.dropLast_sublist s.interactions).mem hi, hin⟩

/-- Rollback preserves well-formedness. -/
theorem wf_rollback {s : State} (h : WF s) (tid : Nat) :
    WF (api_rollback_conversation s tid).1 := by
  obtain ⟨hp, hb⟩ := h
  unfold api_rollback_conversation
  simp only []
  have hfp : (idsOf { s with
      interactions := s.interactions.filter (fun i => i.id ≤ tid) }).Pairwise (· < ·) := by
    have hp2 := List.pairwise_map.1 hp
    exact List.pairwise_map.2 (hp2.sublist (List.filter_sublist s.interactions))
  have hfb : ∀ n ∈ idsOf { s with
      interactions := s.interactions.filter (fun i => i.id ≤ tid) }, n < s.nextId := by
    intro n hn
    apply hb
    simp only [idsOf, List.mem_map] at hn ⊢
    obtain ⟨i, hi, hin⟩ := hn
    exact ⟨i, (List.filter_sublist s.interactions).mem hi, hin⟩
  repeat' split
  · exact ⟨hfp, hfb⟩
  · exact ⟨hfp, hfb⟩
  · exact ⟨hp, hb⟩

/-- Retry preserves well-formedness. -/
theorem wf_retry {s : State} (h : WF s) (env : Env) :
    WF (api_retry_last_message s env).1 := by
  unfold api_retry_last_message
  simp only []
  repeat' split
  · exact wf_of_sa (wf_dropLast h) (handle_sa ..)
  · exact h
  · exact h

/-- The freshly created conversation is well-formed. -/
theorem wf_init : WF initState := by
  constructor
  · simp [idsOf, initState]
  · intro n hn
    simp [idsOf, initState] at hn
    simp [hn, initState]

/-- Every reachable conversation state has a well-formed log: insertion ids
strictly increase along the log. -/
theorem reachable_wf {s : State} (h : Reachable s) : WF s := by
  induction h with
  | init => exact wf_init
  | step _ hs ih =>
      cases hs with
      | send t img env => exact wf_of_sa ih (handle_sa ..)
      | retry env => exact wf_retry ih env
      | rollback tid => exact wf_rollback ih tid

/-- Retry either leaves the log untouched (appending nothing) or removes
exactly the final entry and then only appends. -/
theorem retry_shape (s : State) (env : Env) :
    (∃ ns, idsOf (api_retry_last_message s env).1 = idsOf s ++ ns) ∨
    (∃ ns, idsOf (api_retry_last_message s env).1 = (idsOf s).dropLast ++ ns) := by
  unfold api_retry_last_message
  simp only []
  repeat' split
  · right
    obtain ⟨-, ns, hi, -, -⟩ :=
      handle_sa { s with interactions := s.interactions.dropLast } _ none env
    refine ⟨ns, ?_⟩
    rw [hi]
    simp [idsOf, List.map_dropLast]
  · left; exact ⟨[], by simp⟩
  · left; exact ⟨[], by simp⟩

/-- Rollback either keeps exactly the entries with id at most the target or,
when the target does not belong to the conversation, changes nothing. -/
theorem rollback_shape (s : State) (tid : Nat) :
    (api_rollback_conversation s tid).1.interactions =
      s.interactions.filter (fun i => i.id ≤ tid) ∨
    (api_rollback_conversation s tid).1 = s := by
  unfold api_rollback_conversation
  simp only []
  repeat' split
  · left; rfl
  · left; rfl
  · right; rfl

/-! ## Reachability of the concrete scenario states -/

/-- The state after the first user question is reachable. -/
theorem reachable_trace1 : Reachable trace1 :=
  Reachable.step Reachable.init (DialogStep.send initState ("为什么天是蓝色的") none env0)

/-- The review-status state is reachable. -/
theorem reachable_trace2 : Reachable trace2 :=
  Reachable.step reachable_trace1 (DialogStep.send trace1 ("我觉得我懂了") none envFinish)

/-- The rolled-back state is reachable. -/
theorem reachable_rolled1 : Reachable rolled1 :=
  Reachable.step reachable_trace1 (DialogStep.rollback trace1 1)

/-- The state holding an ai_image entry is reachable. -/
theorem reachable_visual1 : Reachable visual1 :=
  Reachable.step reachable_trace1 (DialogStep.send trace1 ("我觉得跟光有关") none envIdea)

/-- The demo-start state is reachable. -/
theorem reachable_demo1 : Reachable demo1 :=
  Reachable.step Reachable.init (DialogStep.send initState ("为什么会有引力？") none env0)

/-- The finished demo session is reachable. -/
theorem reachable_demo5 : Reachable demo5 :=
  Reachable.step
    (Reachable.step
      (Reachable.step
        (Reachable.step reachable_demo1 (DialogStep.send demo1 ("继续") none env0))
        (DialogStep.send demo2 ("继续") none env0))
      (DialogStep.send demo3 ("继续") none env0))
    (DialogStep.send demo4 ("继续") none env0)

/-! ## Claim C3 -/

/-- Claim C3 (counterexample): the scripted demo finish step sets the
completed flag yet creates no Review row, so a reachable completed
conversation has zero Reviews rather than exactly one. -/
theorem C3_counterexample :
    Reachable demo5 ∧ demo5.conv.is_completed = true ∧ demo5.reviews = [] :=
  ⟨reachable_demo5, by decide, by decide⟩

/-- Claim C3 (amended): every reachable conversation state, completed or
not, has zero Reviews: no live code path ever creates a ThinkingReview row
(the final-synthesis branch that would is dead behind the review-status
short-circuit, and the scripted demo finish sets the completed flag without
creating one), so in particular an incomplete conversation has zero Reviews
and rollback never leaves an orphaned Review behind. -/
theorem C3_reviews_always_empty (s : State) (h : Reachable s) : s.reviews = [] := by
  induction h with
  | init => rfl
  | step _ hs ih =>
      cases hs with
      | send t img env => rw [handle_reviews]; exact ih
      | retry env => rw [retry_reviews]; exact ih
      | rollback tid => rw [rollback_reviews]; exact ih

/-- Claim C3 witness: the amended theorem applied to the initial state. -/
theorem C3_witness : initState.reviews = [] :=
  C3_reviews_always_empty initState Reachable.init

/-! ## Claim C5 -/

/-- Claim C5: for every conversation state and target interaction belonging
to it, rollback keeps exactly the interactions with id (insertion order) at
most the target and deletes the rest; a review-status or completed
conversation is reset to visual_loop with the completed flag cleared, any
other conversation row is untouched, and the resulting phase is never
review. -/
theorem C5_rollback_exact (s : State) (tid : Nat)
    (h : s.interactions.any (fun i => i.id = tid) = true) :
    (api_rollback_conversation s tid).1.interactions =
      s.interactions.filter (fun i => i.id ≤ tid) ∧
    ((s.conv.status = .review ∨ s.conv.is_completed = true) →
      (api_rollback_conversation s tid).1.conv.status = .visual_loop ∧
      (api_rollback_conversation s tid).1.conv.is_completed = false) ∧
    (¬(s.conv.status = .review ∨ s.conv.is_completed = true) →
      (api_rollback_conversation s tid).1.conv = s.conv) ∧
    (api_rollback_conversation s tid).1.conv.status ≠ .review := by
  unfold api_rollback_conversation
  simp only [h]
  by_cases hc : s.conv.status = Phase.review ∨ s.conv.is_completed = true
  · simp [hc]
  · have h1 : s.conv.status ≠ Phase.review := fun hr => hc (Or.inl hr)
    have h2 : s.conv.is_completed = false := by
      cases hcompl : s.conv.is_completed
      · rfl
      · exact absurd (Or.inr hcompl) hc
    simp [hc, h1, h2]

/-- Claim C5 witness: rollback of the fresh conversation to its greeting
entry. -/
theorem C5_witness :
    (api_rollback_conversation initState 0).1.interactions =
      initState.interactions.filter (fun i => i.id ≤ 0) ∧
    ((initState.conv.status = .review ∨ initState.conv.is_completed = true) →
      (api_rollback_conversation initState 0).1.conv.status = .visual_loop ∧
      (api_rollback_conversation initState 0).1.conv.is_completed = false) ∧
    (¬(initState.conv.status = .review ∨ initState.conv.is_completed = true) →
      (api_rollback_conversation initState 0).1.conv = initState.conv) ∧
    (api_rollback_conversation initState 0).1.conv.status ≠ .review :=
  C5_rollback_exact initState 0 (by decide)

/-! ## Claim C7 -/

/-- Claim C7 (counterexample): retry is an operation other than rollback
that removes a log entry: at the reachable state rolled1 (whose last entry
is the user question with id 1), retry deletes that entry. -/
theorem C7_counterexample :
    Reachable rolled1 ∧ 1 ∈ idsOf rolled1 ∧
      1 ∉ idsOf (api_retry_last_message rolled1 envProbe).1 :=
  ⟨reachable_rolled1, by decide, by decide⟩

/-- Claim C7 (amended): on every reachable state the insertion ids strictly
increase along the log; processing a turn only appends entries (never
reorders or deletes); rollback either keeps exactly the prefix of entries
with id at most the target or changes nothing; and retry either only appends
or removes exactly the trailing entry before appending. -/
theorem C7_append_only (s : State) (h : Reachable s) :
    (idsOf s).Pairwise (· < ·) ∧
    (∀ t img env, ∃ ns, idsOf (handle_chat_response s t img env).1 = idsOf s ++ ns) ∧
    (∀ tid, (api_rollback_conversation s tid).1.interactions =
        s.interactions.filter (fun i => i.id ≤ tid) ∨
      (api_rollback_conversation s tid).1 = s) ∧
    (∀ env, (∃ ns, idsOf (api_retry_last_message s env).1 = idsOf s ++ ns) ∨
      (∃ ns, idsOf (api_retry_last_message s env).1 = (idsOf s).dropLast ++ ns)) := by
  refine ⟨(reachable_wf h).1, fun t img env => ?_,
    fun tid => rollback_shape s tid, fun env => retry_shape s env⟩
  obtain ⟨-, ns, hi, -, -⟩ := handle_sa s t img env
  exact ⟨ns, hi⟩

/-- Claim C7 witness: the amended theorem applied to the initial state, with
the send clause instantiated on a concrete turn. -/
theorem C7_witness :
    (idsOf initState).Pairwise (· < ·) ∧
    (∃ ns, idsOf (handle_chat_response initState ("你好") none env0).1 =
      idsOf initState ++ ns) :=
  ⟨(C7_append_only initState Reachable.init).1,
   (C7_append_only initState Reachable.init).2.1 ("你好") none env0⟩

/-! ## Claim C1 -/

/-- Claim C1: at the reachable state trace2 the conversation is in the
review phase with the completed flag still clear, yet processing a user
synthesis short-circuits with the fixed 思考已完成 reply and changes
nothing: no user-synthesis entry is logged, no Review is created, the
completed flag stays clear. The guard at views_helper.py line 82 tests only
the phase, so the synthesis branch at lines 315-342 is unreachable. -/
theorem C1_review_short_circuits_uncompleted :
    Reachable trace2 ∧
    trace2.conv.status = .review ∧
    trace2.conv.is_completed = false ∧
    handle_chat_response trace2 ("因为观察和推理") none env0 =
      (trace2, some { status := "success", answer := some "思考已完成。" }) :=
  ⟨reachable_trace2, by decide, by decide, by decide⟩

/-! ## Claim C2 -/

/-- Claim C2: at the reachable visual_loop state trace1, a turn whose
classification fails to parse (intent unknown) logs the user turn and then
produces no reply at all: the Python function falls past the intent chain
and returns None, and no did-not-understand ai_feedback entry is appended
(that reply text sits in the unreachable else of the phase dispatch). -/
theorem C2_unknown_intent_returns_nothing :
    Reachable trace1 ∧
    trace1.conv.status = .visual_loop ∧
    (handle_chat_response trace1 ("也许吧") none env0).2 = none ∧
    (handle_chat_response trace1 ("也许吧") none env0).1.interactions.map
        (fun i => (i.id, i.kind)) =
      [(0, .ai_feedback), (1, .question), (2, .ai_feedback), (3, .probe_answer)] :=
  ⟨reachable_trace1, by decide, by decide, by decide⟩

/-! ## Claim C4 -/

/-- Claim C4: on the first turn of a fresh conversation with the Reasoning
Gateway failing (API key unset, or a raised network error), the turn does
complete with status success but the reply is the raw Error string rather
than the fixed fallback probe: chat_completion converts failures into
nonempty strings starting with Error:, so the caller test if not answer
never fires and the error is propagated to the end user. -/
theorem C4_gateway_error_propagated :
    (handle_chat_response initState ("为什么天空是蓝色的") none envKeyMissing).2 =
      some { status := "success",
             answer := some "Error: DeepSeek API Key not configured." } ∧
    (handle_chat_response initState ("为什么天空是蓝色的") none envNetErr).2 =
      some { status := "success", answer := some "Error: Connection refused" } ∧
    "Error: DeepSeek API Key not configured." ≠
      "收到。关于这个问题，你现在有什么初步的想法或直觉吗？" :=
  ⟨by decide, by decide, by decide⟩

/-! ## Topic and phase helper lemmas -/

/-- A nonempty string truncated to its first 30 characters stays nonempty. -/
theorem pyTake_ne_empty {t : String} (ht : t ≠ "") : pyTake 30 t ≠ "" := by
  unfold pyTake
  intro hc
  apply ht
  have hdata := congrArg String.data hc
  simp only at hdata
  rcases List.take_eq_nil_iff.1 hdata with h30 | hnil
  · exact absurd h30 (by decide)
  · cases t with
    | mk data =>
        simp only at hnil
        simp [hnil]

/-- Every phase value is one of the three enumerated ones. -/
theorem phase_cases (p : Phase) :
    p = .initial_probe ∨ p = .visual_loop ∨ p = .review := by
  cases p
  · left; rfl
  · right; left; rfl
  · right; right; rfl

/-- Appending an entry keeps the conversation row. -/
theorem conv_appendI (s : State) (k : IKind) (t : String) (u p : Option String) :
    (appendI s k t u p).conv = s.conv := rfl

/-- The demo start step sets the reserved topic marker and the visual_loop
phase. -/
theorem demo_start_conv (s : State) (ui : String) (u : Option String) (env : Env) :
    (handle_relativity_demo s ui true u env).1.conv =
      { topic := "[DEMO] Relativity", status := .visual_loop,
        is_completed := s.conv.is_completed } := by
  unfold handle_relativity_demo
  simp [appendI]

/-- The initial_probe branch sets the topic to the truncated user text and
moves to visual_loop. -/
theorem initial_conv (s : State) (ui : String) (u : Option String) (env : Env) :
    (initial_probe_branch s ui u env).1.conv =
      { topic := pyTake 30 ui, status := .visual_loop,
        is_completed := s.conv.is_completed } := by
  unfold initial_probe_branch
  simp [appendI]

/-- The intent dispatch never changes the topic. -/
theorem dispatch_topic (s1 : State) (ui : String) (a : Analysis) (env : Env) :
    (visual_dispatch s1 ui a env).1.conv.topic = s1.conv.topic := by
  unfold visual_dispatch
  simp only []
  repeat' split
  all_goals simp [conv_appendI, conv_patchT, conv_patchP, appendI]

/-- The visual_loop branch never changes the topic. -/
theorem visual_topic (s : State) (ui : String) (u : Option String) (env : Env) :
    (visual_loop_branch s ui u env).1.conv.topic = s.conv.topic := by
  unfold visual_loop_branch
  simp only []
  repeat' split
  all_goals simp [conv_appendI, appendI, dispatch_topic]

/-- The dead synthesis branch never changes the topic. -/
theorem reviewb_topic (s : State) (ui : String) :
    (review_synthesis_branch s ui).1.conv.topic = s.conv.topic := by
  unfold review_synthesis_branch
  simp [appendI]

/-! ## Reduction lemmas for the turn processor -/

/-- With text input (no placeholder substitution) containing the explicit
trigger phrase, the turn is the demo start on the normalized input. -/
theorem handle_trigger1 (s : State) (t : String) (img : Option String) (env : Env)
    (hui : ¬(t = "" ∧ img.isSome = true))
    (h1 : strContains (stripQm t) ("广义相对论是什么") = true) :
    handle_chat_response s t img env =
      handle_relativity_demo s ("为什么会有引力？") true img env := by
  unfold handle_chat_response
  simp [hui, h1]

/-- A first-turn mention of 引力 or 相对论 also starts the demo. -/
theorem handle_trigger2 (s : State) (t : String) (img : Option String) (env : Env)
    (hui : ¬(t = "" ∧ img.isSome = true))
    (h1 : strContains (stripQm t) ("广义相对论是什么") = false)
    (h2 : s.interactions.length ≤ 1)
    (h3 : strContains t ("引力") = true ∨ strContains t ("相对论") = true) :
    handle_chat_response s t img env = handle_relativity_demo s t true img env := by
  unfold handle_chat_response
  rcases h3 with h3 | h3 <;> simp [hui, h1, h2, h3]

/-- Without any demo trigger and without the topic marker, the turn reduces to
the phase dispatch. -/
theorem handle_nodemo (s : State) (t : String) (img : Option String) (env : Env)
    (hui : ¬(t = "" ∧ img.isSome = true))
    (h1 : strContains (stripQm t) ("广义相对论是什么") = false)
    (h23 : ¬(s.interactions.length ≤ 1 ∧
      (strContains t ("引力") = true ∨ strContains t ("相对论") = true)))
    (htop : strStarts s.conv.topic ("[DEMO]") = false) :
    handle_chat_response s t img env =
      (if s.conv.status = .review then
        (s, some { status := "success", answer := some "思考已完成。" })
      else
        match s.conv.status with
        | .initial_probe => initial_probe_branch s t img env
        | .visual_loop => visual_loop_branch s t img env
        | .review => review_synthesis_branch s t) := by
  unfold handle_chat_response
  simp [hui, h1, h23, htop]

/-! ## Claim C9 -/

/-- Claim C9 (counterexample): an empty-text, no-image first turn is
processed normally: the conversation leaves initial_probe for visual_loop
while the topic stays empty, refuting topic non-emptiness for every turn
including an empty first text. -/
theorem C9_counterexample :
    (handle_chat_response initState ("") none env0).1.conv.status = .visual_loop ∧
    (handle_chat_response initState ("") none env0).1.conv.topic = "" :=
  ⟨by decide, by decide⟩

/-- Claim C9 (amended): the phase is always one of the three enumerated
values, and a first turn whose text is nonempty leaves a nonempty topic
behind (the trigger phrases lead to the demo marker topic, any other text to
its 30-character truncation); only an empty-text no-image first turn
produces an empty topic. -/
theorem C9_topic_after_first_turn (s : State) (t : String) (img : Option String)
    (env : Env)
    (hstat : s.conv.status = .initial_probe)
    (htop : strStarts s.conv.topic ("[DEMO]") = false)
    (ht : t ≠ "") :
    ((handle_chat_response s t img env).1.conv.status = .initial_probe ∨
     (handle_chat_response s t img env).1.conv.status = .visual_loop ∨
     (handle_chat_response s t img env).1.conv.status = .review) ∧
    (handle_chat_response s t img env).1.conv.topic ≠ "" := by
  refine ⟨phase_cases _, ?_⟩
  have hui : ¬(t = "" ∧ img.isSome = true) := fun hc => ht hc.1
  cases h1 : strContains (stripQm t) ("广义相对论是什么") with
  | true =>
      rw [handle_trigger1 s t img env hui h1, demo_start_conv]
      simp
  | false =>
      by_cases h23 : s.interactions.length ≤ 1 ∧
          (strContains t ("引力") = true ∨ strContains t ("相对论") = true)
      · rw [handle_trigger2 s t img env hui h1 h23.1 h23.2, demo_start_conv]
        simp
      · rw [handle_nodemo s t img env hui h1 h23 htop]
        simp only [hstat, reduceCtorEq, ite_false, if_false]
        rw [initial_conv]
        exact pyTake_ne_empty ht

/-- Claim C9 witness: the amended theorem on the initial state with a
nonempty first question. -/
theorem C9_witness :
    ((handle_chat_response initState ("你好") none env0).1.conv.status = .initial_probe ∨
     (handle_chat_response initState ("你好") none env0).1.conv.status = .visual_loop ∨
     (handle_chat_response initState ("你好") none env0).1.conv.status = .review) ∧
    (handle_chat_response initState ("你好") none env0).1.conv.topic ≠ "" :=
  C9_topic_after_first_turn initState ("你好") none env0 (by decide) (by decide) (by decide)

/-! ## Claim C10 -/

/-- An empty-text turn with an uploaded image substitutes the placeholder
text; the placeholder fires no demo trigger, so away from the topic marker
the turn reduces to the phase dispatch on the placeholder. -/
theorem handle_empty_image (s : State) (img : Option String) (env : Env)
    (himg : img.isSome = true)
    (htop : strStarts s.conv.topic ("[DEMO]") = false) :
    handle_chat_response s ("") img env =
      (if s.conv.status = .review then
        (s, some { status := "success", answer := some "思考已完成。" })
      else
        match s.conv.status with
        | .initial_probe => initial_probe_branch s ("[用户上传了一张图片]") img env
        | .visual_loop => visual_loop_branch s ("[用户上传了一张图片]") img env
        | .review => review_synthesis_branch s ("[用户上传了一张图片]")) := by
  unfold handle_chat_response
  have e1 : strContains (stripQm ("[用户上传了一张图片]")) ("广义相对论是什么") = false := by
    decide
  have e2 : strContains ("[用户上传了一张图片]") ("引力") = false := by decide
  have e3 : strContains ("[用户上传了一张图片]") ("相对论") = false := by decide
  simp [himg, e1, e2, e3, htop]

/-- The phase dispatch keeps the topic away from the demo marker as long as
the 30-character truncation of the logged text does not start with it. -/
theorem branches_topic (s : State) (t : String) (img : Option String) (env : Env)
    (htop : strStarts s.conv.topic ("[DEMO]") = false)
    (htake : strStarts (pyTake 30 t) ("[DEMO]") = false) :
    strStarts ((if s.conv.status = .review then
        (s, some { status := "success", answer := some "思考已完成。" })
      else
        match s.conv.status with
        | .initial_probe => initial_probe_branch s t img env
        | .visual_loop => visual_loop_branch s t img env
        | .review => review_synthesis_branch s t)).1.conv.topic ("[DEMO]") = false := by
  by_cases hst : s.conv.status = .review
  · rw [if_pos hst]
    exact htop
  · rw [if_neg hst]
    cases hphase : s.conv.status with
    | initial_probe =>
        simp only []
        rw [initial_conv]
        exact htake
    | visual_loop =>
        simp only []
        rw [visual_topic]
        exact htop
    | review => exact absurd hphase hst

/-- Claim C10 (counterexample): at the reachable state trace2 a normal
(non-scripted) conversation sits in the review phase, yet one later user
turn carrying the explicit trigger phrase switches it into scripted mode:
the topic is overwritten with the reserved demo marker and the phase forced
back to visual_loop. The demo check runs on every turn, before the phase
dispatch. -/
theorem C10_counterexample :
    Reachable trace2 ∧ trace2.conv.status = .review ∧
    strStarts trace2.conv.topic ("[DEMO]") = false ∧
    (handle_chat_response trace2 ("广义相对论是什么？") none env0).1.conv.topic =
      "[DEMO] Relativity" ∧
    (handle_chat_response trace2 ("广义相对论是什么？") none env0).1.conv.status =
      .visual_loop :=
  ⟨reachable_trace2, by decide, by decide, by decide, by decide⟩

/-- Claim C10 (amended): the scripted mode is re-evaluated on every turn,
not selected once: it is entered whenever the explicit phrase appears in any
turn, on a first-turn mention of 引力 or 相对论, or while the topic carries
the marker. A turn avoiding all three (with logged text whose truncation
does not itself start with the marker) never switches the conversation into
scripted mode. -/
theorem C10_no_trigger_no_demo (s : State) (t : String) (img : Option String)
    (env : Env)
    (h1 : strContains (stripQm t) ("广义相对论是什么") = false)
    (h2 : strContains t ("引力") = false)
    (h3 : strContains t ("相对论") = false)
    (htop : strStarts s.conv.topic ("[DEMO]") = false)
    (htake : strStarts (pyTake 30 t) ("[DEMO]") = false) :
    strStarts (handle_chat_response s t img env).1.conv.topic ("[DEMO]") = false := by
  by_cases hq : t = "" ∧ img.isSome = true
  · obtain ⟨ht0, himg⟩ := hq
    subst ht0
    rw [handle_empty_image s img env himg htop]
    exact branches_topic s ("[用户上传了一张图片]") img env htop (by decide)
  · have h23 : ¬(s.interactions.length ≤ 1 ∧
        (strContains t ("引力") = true ∨ strContains t ("相对论") = true)) := by
      simp [h2, h3]
    rw [handle_nodemo s t img env hq h1 h23 htop]
    exact branches_topic s t img env htop htake

/-- Claim C10 witness: a trigger-free turn on the visual_loop state trace1
stays out of scripted mode. -/
theorem C10_witness :
    strStarts (handle_chat_response trace1 ("我还是不懂") none env0).1.conv.topic
      ("[DEMO]") = false :=
  C10_no_trigger_no_demo trace1 ("我还是不懂") none env0
    (by decide) (by decide) (by decide) (by decide) (by decide)

/-! ## Concat-form lemmas for the log primitives -/

/-- Appending to a log that ends in a known entry. -/
theorem append_pair {s' : State} {l0 : List Interaction} {u0 : Interaction}
    (h : s'.interactions = l0 ++ [u0]) (k : IKind) (txt : String)
    (url pr : Option String) :
    (appendI s' k txt url pr).interactions =
      l0 ++ [u0, { id := s'.nextId, kind := k, text_content := txt,
                   image_url := url, image_prompt := pr, is_passed := false }] := by
  show s'.interactions ++ [_] = _
  rw [h, List.append_assoc]
  rfl

/-- Patching the text of the known last entry. -/
theorem patchText_concat {s : State} {l : List Interaction} {u : Interaction}
    (h : s.interactions = l ++ [u]) (txt : String) :
    patchLastText s txt =
      { s with interactions := l ++ [{ u with text_content := txt }] } := by
  have hl : s.interactions.getLast? = some u := by
    rw [h]
    exact List.getLast?_concat l
  unfold patchLastText
  cases hgl : s.interactions.getLast? with
  | none => rw [hgl] at hl; cases hl
  | some i =>
      rw [hgl] at hl
      injection hl with hiu
      subst hiu
      simp [h, List.dropLast_concat]

/-- Patching the passed-marker of the known last entry. -/
theorem patchPassed_concat {s : State} {l : List Interaction} {u : Interaction}
    (h : s.interactions = l ++ [u]) :
    patchLastPassed s =
      { s with interactions := l ++ [{ u with is_passed := true }] } := by
  have hl : s.interactions.getLast? = some u := by
    rw [h]
    exact List.getLast?_concat l
  unfold patchLastPassed
  cases hgl : s.interactions.getLast? with
  | none => rw [hgl] at hl; cases hl
  | some i =>
      rw [hgl] at hl
      injection hl with hiu
      subst hiu
      simp [h, List.dropLast_concat]

/-! ## Reduction lemmas for the visual loop -/

/-- When the classification parses, analyze_user_input returns it. -/
theorem analyze_some {env : Env} {a : Analysis} (ha : env.analysis = some a)
    (q ui ctx : String) : analyze_user_input q ui ctx env = a := by
  unfold analyze_user_input
  rw [ha]

/-- A visual-loop turn with nonempty text and no image logs the user turn
and dispatches on the parsed classification. -/
theorem visual_noimg (s : State) (t : String) (env : Env) (a : Analysis)
    (ht : t ≠ "") (ha : env.analysis = some a) :
    visual_loop_branch s t none env =
      visual_dispatch (appendI s (userTurnKind s.interactions.getLast?) t none none)
        t a env := by
  unfold visual_loop_branch
  simp [ht, analyze_some ha]

/-- A trigger-free, nonempty-text, image-free turn on a visual_loop
conversation away from the demo marker reduces to the intent dispatch on
the log extended with the user turn. -/
theorem handle_visual_eq (s : State) (t : String) (env : Env) (a : Analysis)
    (hstat : s.conv.status = .visual_loop)
    (htop : strStarts s.conv.topic ("[DEMO]") = false)
    (ht : t ≠ "")
    (h1 : strContains (stripQm t) ("广义相对论是什么") = false)
    (h2 : strContains t ("引力") = false)
    (h3 : strContains t ("相对论") = false)
    (ha : env.analysis = some a) :
    handle_chat_response s t none env =
      visual_dispatch (appendI s (userTurnKind s.interactions.getLast?) t none none)
        t a env := by
  have hui : ¬(t = "" ∧ (none : Option String).isSome = true) := fun hc => ht hc.1
  have h23 : ¬(s.interactions.length ≤ 1 ∧
      (strContains t ("引力") = true ∨ strContains t ("相对论") = true)) := by
    simp [h2, h3]
  rw [handle_nodemo s t none env hui h1 h23 htop]
  rw [if_neg (by rw [hstat]; simp)]
  simp only [hstat]
  exact visual_noimg s t env a ht ha

/-- The probe_deeper arm of the dispatch. -/
theorem dispatch_probe (s1 : State) (ui : String) (a : Analysis) (env : Env)
    (hi : a.intent = "probe_deeper") :
    visual_dispatch s1 ui a env =
      (appendI s1 .ai_feedback
        (if a.visual_guide_text = "" ∨
            a.visual_guide_text = "没关系。试着想象一下，如果我们改变一个条件..." then
          chat_completion env.chat
        else a.visual_guide_text) none none,
       some { status := "success",
              answer := some (if a.visual_guide_text = "" ∨
                  a.visual_guide_text = "没关系。试着想象一下，如果我们改变一个条件..." then
                chat_completion env.chat
              else a.visual_guide_text) }) := by
  unfold visual_dispatch
  simp [hi]

/-- The no_idea / has_idea arm of the dispatch. -/
theorem dispatch_idea (s1 : State) (ui : String) (a : Analysis) (env : Env)
    (hi : a.intent = "no_idea" ∨ a.intent = "has_idea") :
    visual_dispatch s1 ui a env =
      (if a.tool = "desmos" then
        (appendI s1 .ai_image
          (if a.visual_guide_text ≠ "" then a.visual_guide_text
           else "这是一个数学函数图像，试着调整参数看看会发生什么？")
          none (some ("DESMOS: " ++ a.desmos_latex)),
         some { status := "success",
                answer := some (if a.visual_guide_text ≠ "" then a.visual_guide_text
                  else "这是一个数学函数图像，试着调整参数看看会发生什么？"),
                desmos_latex := some a.desmos_latex })
      else
        (appendI s1 .ai_image
          (if a.visual_guide_text ≠ "" then a.visual_guide_text
           else "这是一张为你生成的视觉线索图。请仔细观察它，你看到了什么？这与你的问题有什么联系？")
          (some env.gen_image)
          (some (if a.visual_prompt ≠ "" then a.visual_prompt
            else generate_visual_prompt s1.conv.topic
              (if a.intent = "has_idea" then ui else "Concept of " ++ s1.conv.topic)
              env.visual)),
         some { status := "success",
                answer := some (if a.visual_guide_text ≠ "" then a.visual_guide_text
                  else "这是一张为你生成的视觉线索图。请仔细观察它，你看到了什么？这与你的问题有什么联系？"),
                image_url := some env.gen_image })) := by
  unfold visual_dispatch
  rcases hi with hi | hi <;> simp [hi]

/-- The verify_understanding arm of the dispatch. -/
theorem dispatch_verify (s1 : State) (ui : String) (a : Analysis) (env : Env)
    (hi : a.intent = "verify_understanding") :
    visual_dispatch s1 ui a env =
      (patchLastText
        (appendI s1 .ai_feedback
          (if a.visual_guide_text ≠ "" then a.visual_guide_text
           else "看来你已经抓住关键了。来做一个小测试验证一下你的理解。") none none)
        ((if a.visual_guide_text ≠ "" then a.visual_guide_text
          else "看来你已经抓住关键了。来做一个小测试验证一下你的理解。") ++
          "\n<CHALLENGE>" ++ challengeJson a.fill_in_the_blank ++ "</CHALLENGE>"),
       some { status := "success",
              answer := some (if a.visual_guide_text ≠ "" then a.visual_guide_text
                else "看来你已经抓住关键了。来做一个小测试验证一下你的理解。"),
              challenge := some (challengeJson a.fill_in_the_blank) }) := by
  unfold visual_dispatch
  simp [hi]

/-- The finish arm of the dispatch. -/
theorem dispatch_finish (s1 : State) (ui : String) (a : Analysis) (env : Env)
    (hi : a.intent = "finish") :
    visual_dispatch s1 ui a env =
      (appendI { s1 with conv := { s1.conv with status := .review } } .ai_feedback
        ("你已经完成了整个视觉探索旅程。现在，请试着用一句话总结：为什么会有石油？（这是最后一步，请给出你的定义）")
        none none,
       some { status := "success",
              answer := some "你已经完成了整个视觉探索旅程。现在，请试着用一句话总结：为什么会有石油？（这是最后一步，请给出你的定义）" }) := by
  unfold visual_dispatch
  simp [hi]

/-- The explaining_image pass arm of the dispatch: the passed-marker is set
on the LAST log entry (the just-logged user turn), then the next image is
appended. -/
theorem dispatch_explaining_pass (s1 : State) (ui : String) (a : Analysis) (env : Env)
    (hi : a.intent = "explaining_image") (hp : a.evaluation = "pass") :
    visual_dispatch s1 ui a env =
      (appendI (patchLastPassed s1) .ai_image
        (if a.visual_guide_text ≠ "" then a.visual_guide_text
         else "很有趣的解读。现在，让我们看看下一张图，它揭示了更深的一层含义...")
        (some env.gen_image)
        (some (if a.visual_prompt ≠ "" then a.visual_prompt
          else generate_visual_prompt s1.conv.topic ("Next step after: " ++ ui)
            env.visual)),
       some { status := "success",
              answer := some (if a.visual_guide_text ≠ "" then a.visual_guide_text
                else "很有趣的解读。现在，让我们看看下一张图，它揭示了更深的一层含义..."),
              image_url := some env.gen_image }) := by
  unfold visual_dispatch
  simp [hi, hp]

/-- The explaining_image fail arm of the dispatch: the corrective hint is
logged as ai_feedback. -/
theorem dispatch_explaining_fail (s1 : State) (ui : String) (a : Analysis) (env : Env)
    (hi : a.intent = "explaining_image") (hp : a.evaluation ≠ "pass") :
    visual_dispatch s1 ui a env =
      (appendI s1 .ai_feedback (a.next_step_hint.getD ("请再仔细看看。")) none none,
       some { status := "success",
              answer := some (a.next_step_hint.getD ("请再仔细看看。")) }) := by
  unfold visual_dispatch
  simp [hi, hp]

/-! ## Claim C8 -/

/-- Claim C8 (counterexample): at the reachable state visual1 the last entry
is the ai_image artifact turn (id 4, passed-marker false); after an
explaining_image turn with a pass verdict, that prior artifact entry still
has its passed-marker false, while the just-logged user interpretation
(id 5) got marked true: the code marks the current user turn, not the
previous artifact-bearing interaction. -/
theorem C8_counterexample :
    Reachable visual1 ∧
    (visual1.interactions.map (fun i => (i.id, i.kind, i.is_passed))).getLast? =
      some (4, .ai_image, false) ∧
    visual2.interactions.map (fun i => (i.id, i.kind, i.is_passed)) =
      [(0, .ai_feedback, false), (1, .question, false), (2, .ai_feedback, false),
       (3, .probe_answer, false), (4, .ai_image, false),
       (5, .user_interpretation, true), (6, .ai_image, false)] :=
  ⟨reachable_visual1, by decide, by decide⟩

/-- Claim C8 (amended): on a trigger-free visual_loop turn classified as
explaining_image, a pass verdict sets the passed-marker of the just-logged
user turn (the prior ai-image entry and all earlier entries are left
unchanged, being an untouched prefix) and appends one ai_image turn with a
freshly generated artifact reference; a fail verdict appends the corrective
hint as an ai_feedback turn; the conversation row (phase, topic, completed
flag) is unchanged either way. -/
theorem C8_explaining_marks_user_turn (s : State) (t : String) (env : Env)
    (a : Analysis)
    (hstat : s.conv.status = .visual_loop)
    (htop : strStarts s.conv.topic ("[DEMO]") = false)
    (ht : t ≠ "")
    (h1 : strContains (stripQm t) ("广义相对论是什么") = false)
    (h2 : strContains t ("引力") = false)
    (h3 : strContains t ("相对论") = false)
    (ha : env.analysis = some a)
    (hi : a.intent = "explaining_image") :
    (a.evaluation = "pass" →
      ∃ u r, (handle_chat_response s t none env).1.interactions =
          s.interactions ++ [u, r] ∧
        u.text_content = t ∧ u.is_passed = true ∧
        (u.kind = .probe_answer ∨ u.kind = .user_interpretation) ∧
        r.kind = .ai_image ∧ r.image_url = some env.gen_image ∧
        r.is_passed = false ∧
        (handle_chat_response s t none env).1.conv = s.conv) ∧
    (a.evaluation ≠ "pass" →
      ∃ u r, (handle_chat_response s t none env).1.interactions =
          s.interactions ++ [u, r] ∧
        u.text_content = t ∧ u.is_passed = false ∧
        (u.kind = .probe_answer ∨ u.kind = .user_interpretation) ∧
        r.kind = .ai_feedback ∧
        r.text_content = a.next_step_hint.getD ("请再仔细看看。") ∧
        (handle_chat_response s t none env).1.conv = s.conv) := by
  rw [handle_visual_eq s t env a hstat htop ht h1 h2 h3 ha]
  constructor
  · intro hp
    rw [dispatch_explaining_pass _ t a env hi hp]
    rw [patchPassed_concat (show (appendI s (userTurnKind s.interactions.getLast?)
        t none none).interactions = s.interactions ++
          [{ id := s.nextId, kind := userTurnKind s.interactions.getLast?,
             text_content := t, image_url := none, image_prompt := none,
             is_passed := false }] from rfl)]
    refine ⟨{ id := s.nextId, kind := userTurnKind s.interactions.getLast?,
              text_content := t, image_url := none, image_prompt := none,
              is_passed := true },
            { id := s.nextId + 1, kind := .ai_image,
              text_content := if a.visual_guide_text ≠ "" then a.visual_guide_text
                else "很有趣的解读。现在，让我们看看下一张图，它揭示了更深的一层含义...",
              image_url := some env.gen_image,
              image_prompt := some (if a.visual_prompt ≠ "" then a.visual_prompt
                else generate_visual_prompt s.conv.topic ("Next step after: " ++ t)
                  env.visual),
              is_passed := false },
            ?_, rfl, rfl, userTurnKind_cases _, rfl, rfl, rfl, rfl⟩
    exact append_pair (show ({ appendI s (userTurnKind s.interactions.getLast?) t none none
        with interactions := s.interactions ++
          [{ id := s.nextId, kind := userTurnKind s.interactions.getLast?,
             text_content := t, image_url := none, image_prompt := none,
             is_passed := true }] } : State).interactions = s.interactions ++
        [{ id := s.nextId, kind := userTurnKind s.interactions.getLast?,
           text_content := t, image_url := none, image_prompt := none,
           is_passed := true }] from rfl) .ai_image _ _ _
  · intro hp
    rw [dispatch_explaining_fail _ t a env hi hp]
    refine ⟨{ id := s.nextId, kind := userTurnKind s.interactions.getLast?,
              text_content := t, image_url := none, image_prompt := none,
              is_passed := false },
            { id := s.nextId + 1, kind := .ai_feedback,
              text_content := a.next_step_hint.getD ("请再仔细看看。"),
              image_url := none, image_prompt := none, is_passed := false },
            ?_, rfl, rfl, userTurnKind_cases _, rfl, rfl, rfl⟩
    exact append_pair (show (appendI s (userTurnKind s.interactions.getLast?)
        t none none).interactions = s.interactions ++
          [{ id := s.nextId, kind := userTurnKind s.interactions.getLast?,
             text_content := t, image_url := none, image_prompt := none,
             is_passed := false }] from rfl) .ai_feedback _ none none

/-- Claim C8 witness: the amended theorem at the concrete state visual1 with
a pass-classified explaining turn. -/
theorem C8_witness :
    ∃ u r, (handle_chat_response visual1 ("光被空气散射开了") none envPass).1.interactions =
        visual1.interactions ++ [u, r] ∧
      u.text_content = ("光被空气散射开了") ∧ u.is_passed = true ∧
      (u.kind = .probe_answer ∨ u.kind = .user_interpretation) ∧
      r.kind = .ai_image ∧ r.image_url = some envPass.gen_image ∧
      r.is_passed = false ∧
      (handle_chat_response visual1 ("光被空气散射开了") none envPass).1.conv =
        visual1.conv :=
  (C8_explaining_marks_user_turn visual1 ("光被空气散射开了") envPass
    { intent := "explaining_image", evaluation := "pass",
      visual_prompt := "the next scene", visual_guide_text := "下一张图" }
    (by decide) (by decide) (by decide) (by decide) (by decide) (by decide)
    rfl rfl).1 rfl

/-! ## Claim C6 -/

/-- Claim C6 (counterexample): at the reachable state rolled1 the last entry
is user-authored (the question, id 1), yet retry with an unrecognizable
classification removes it, re-logs the user turn (id 3) and appends NO
regenerated reply entry, returning no response at all. -/
theorem C6_counterexample :
    Reachable rolled1 ∧
    rolled1.interactions.getLast?.map (fun i => i.kind) = some .question ∧
    (api_retry_last_message rolled1 env0).2 = none ∧
    (api_retry_last_message rolled1 env0).1.interactions.map (fun i => (i.id, i.kind)) =
      [(0, .ai_feedback), (3, .probe_answer)] :=
  ⟨reachable_rolled1, by decide, by decide, by decide⟩

/-- Helper: on a log ending in a known entry, every recognized intent
appends exactly one reply entry after the (possibly passed-marked) last
entry, and returns a response. -/
theorem dispatch_two (s1 : State) (ui : String) (a : Analysis) (env : Env)
    {l0 : List Interaction} {u0 : Interaction}
    (h : s1.interactions = l0 ++ [u0])
    (hi : a.intent = "probe_deeper" ∨ a.intent = "no_idea" ∨ a.intent = "has_idea" ∨
      a.intent = "verify_understanding" ∨ a.intent = "finish" ∨
      a.intent = "explaining_image") :
    ∃ u r, (visual_dispatch s1 ui a env).1.interactions = l0 ++ [u, r] ∧
      u.text_content = u0.text_content ∧ u.kind = u0.kind ∧
      (r.kind = .ai_feedback ∨ r.kind = .ai_image) ∧
      (visual_dispatch s1 ui a env).2.isSome = true := by
  rcases hi with hi | hi | hi | hi | hi | hi
  · rw [dispatch_probe s1 ui a env hi]
    refine ⟨u0,
      { id := s1.nextId, kind := .ai_feedback,
        text_content := if a.visual_guide_text = "" ∨
            a.visual_guide_text = "没关系。试着想象一下，如果我们改变一个条件..." then
          chat_completion env.chat
        else a.visual_guide_text,
        image_url := none, image_prompt := none, is_passed := false },
      ?_, rfl, rfl, Or.inl rfl, rfl⟩
    exact append_pair h .ai_feedback _ none none
  · rw [dispatch_idea s1 ui a env (Or.inl hi)]
    by_cases htool : a.tool = "desmos"
    · rw [if_pos htool]
      refine ⟨u0,
        { id := s1.nextId, kind := .ai_image,
          text_content := if a.visual_guide_text ≠ "" then a.visual_guide_text
            else "这是一个数学函数图像，试着调整参数看看会发生什么？",
          image_url := none, image_prompt := some ("DESMOS: " ++ a.desmos_latex),
          is_passed := false },
        ?_, rfl, rfl, Or.inr rfl, rfl⟩
      exact append_pair h .ai_image _ none _
    · rw [if_neg htool]
      refine ⟨u0,
        { id := s1.nextId, kind := .ai_image,
          text_content := if a.visual_guide_text ≠ "" then a.visual_guide_text
            else "这是一张为你生成的视觉线索图。请仔细观察它，你看到了什么？这与你的问题有什么联系？",
          image_url := some env.gen_image,
          image_prompt := some (if a.visual_prompt ≠ "" then a.visual_prompt
            else generate_visual_prompt s1.conv.topic
              (if a.intent = "has_idea" then ui else "Concept of " ++ s1.conv.topic)
              env.visual),
          is_passed := false },
        ?_, rfl, rfl, Or.inr rfl, rfl⟩
      exact append_pair h .ai_image _ _ _
  · rw [dispatch_idea s1 ui a env (Or.inr hi)]
    by_cases htool : a.tool = "desmos"
    · rw [if_pos htool]
      refine ⟨u0,
        { id := s1.nextId, kind := .ai_image,
          text_content := if a.visual_guide_text ≠ "" then a.visual_guide_text
            else "这是一个数学函数图像，试着调整参数看看会发生什么？",
          image_url := none, image_prompt := some ("DESMOS: " ++ a.desmos_latex),
          is_passed := false },
        ?_, rfl, rfl, Or.inr rfl, rfl⟩
      exact append_pair h .ai_image _ none _
    · rw [if_neg htool]
      refine ⟨u0,
        { id := s1.nextId, kind := .ai_image,
          text_content := if a.visual_guide_text ≠ "" then a.visual_guide_text
            else "这是一张为你生成的视觉线索图。请仔细观察它，你看到了什么？这与你的问题有什么联系？",
          image_url := some env.gen_image,
          image_prompt := some (if a.visual_prompt ≠ "" then a.visual_prompt
            else generate_visual_prompt s1.conv.topic
              (if a.intent = "has_idea" then ui else "Concept of " ++ s1.conv.topic)
              env.visual),
          is_passed := false },
        ?_, rfl, rfl, Or.inr rfl, rfl⟩
      exact append_pair h .ai_image _ _ _
  · rw [dispatch_verify s1 ui a env hi]
    have hc := append_pair h .ai_feedback
      (if a.visual_guide_text ≠ "" then a.visual_guide_text
       else "看来你已经抓住关键了。来做一个小测试验证一下你的理解。") none none
    have hc2 : (appendI s1 .ai_feedback
        (if a.visual_guide_text ≠ "" then a.visual_guide_text
         else "看来你已经抓住关键了。来做一个小测试验证一下你的理解。") none none).interactions =
        (l0 ++ [u0]) ++
          [{ id := s1.nextId, kind := .ai_feedback,
             text_content := if a.visual_guide_text ≠ "" then a.visual_guide_text
               else "看来你已经抓住关键了。来做一个小测试验证一下你的理解。",
             image_url := none, image_prompt := none, is_passed := false }] := by
      rw [hc]
      exact (List.append_assoc l0 [u0] _).symm
    rw [patchText_concat hc2 _]
    refine ⟨u0,
      { id := s1.nextId, kind := .ai_feedback,
        text_content := (if a.visual_guide_text ≠ "" then a.visual_guide_text
            else "看来你已经抓住关键了。来做一个小测试验证一下你的理解。") ++
          "\n<CHALLENGE>" ++ challengeJson a.fill_in_the_blank ++ "</CHALLENGE>",
        image_url := none, image_prompt := none, is_passed := false },
      ?_, rfl, rfl, Or.inl rfl, rfl⟩
    exact List.append_assoc l0 [u0] _
  · rw [dispatch_finish s1 ui a env hi]
    refine ⟨u0,
      { id := s1.nextId, kind := .ai_feedback,
        text_content := "你已经完成了整个视觉探索旅程。现在，请试着用一句话总结：为什么会有石油？（这是最后一步，请给出你的定义）",
        image_url := none, image_prompt := none, is_passed := false },
      ?_, rfl, rfl, Or.inl rfl, rfl⟩
    exact append_pair (show ({ s1 with conv := { s1.conv with status := .review }
      } : State).interactions = l0 ++ [u0] from h) .ai_feedback _ none none
  · by_cases hev : a.evaluation = "pass"
    · rw [dispatch_explaining_pass s1 ui a env hi hev]
      rw [patchPassed_concat h]
      refine ⟨{ u0 with is_passed := true },
        { id := s1.nextId, kind := .ai_image,
          text_content := if a.visual_guide_text ≠ "" then a.visual_guide_text
            else "很有趣的解读。现在，让我们看看下一张图，它揭示了更深的一层含义...",
          image_url := some env.gen_image,
          image_prompt := some (if a.visual_prompt ≠ "" then a.visual_prompt
            else generate_visual_prompt s1.conv.topic ("Next step after: " ++ ui)
              env.visual),
          is_passed := false },
        ?_, rfl, rfl, Or.inr rfl, rfl⟩
      exact append_pair (show ({ s1 with interactions := l0 ++
          [{ u0 with is_passed := true }] } : State).interactions = l0 ++
          [{ u0 with is_passed := true }] from rfl) .ai_image _ _ _
    · rw [dispatch_explaining_fail s1 ui a env hi hev]
      refine ⟨u0,
        { id := s1.nextId, kind := .ai_feedback,
          text_content := a.next_step_hint.getD ("请再仔细看看。"),
          image_url := none, image_prompt := none, is_passed := false },
        ?_, rfl, rfl, Or.inl rfl, rfl⟩
      exact append_pair h .ai_feedback _ none none

/-- Claim C6 (amended): when the last log entry is one of the recognized
user kinds (question, probe-answer, user-interpretation) with nonempty,
trigger-free text, on a visual_loop conversation away from the demo marker
whose classification parses to a recognized intent, retry removes exactly
that entry and appends exactly one new user entry carrying the same text
plus exactly one regenerated reply entry (ai_feedback or ai_image), and
returns a response; with an unrecognized intent no reply entry is appended
(see the counterexample), and a system-authored last entry is a signaled
no-op. -/
theorem C6_retry_amended (s : State) (env : Env) (li : Interaction) (a : Analysis)
    (hlast : s.interactions.getLast? = some li)
    (hkind : li.kind = .question ∨ li.kind = .probe_answer ∨
      li.kind = .user_interpretation)
    (ht : li.text_content ≠ "")
    (hstat : s.conv.status = .visual_loop)
    (htop : strStarts s.conv.topic ("[DEMO]") = false)
    (h1 : strContains (stripQm li.text_content) ("广义相对论是什么") = false)
    (h2 : strContains li.text_content ("引力") = false)
    (h3 : strContains li.text_content ("相对论") = false)
    (ha : env.analysis = some a)
    (hi : a.intent = "probe_deeper" ∨ a.intent = "no_idea" ∨ a.intent = "has_idea" ∨
      a.intent = "verify_understanding" ∨ a.intent = "finish" ∨
      a.intent = "explaining_image") :
    (∃ u r, (api_retry_last_message s env).1.interactions =
        s.interactions.dropLast ++ [u, r] ∧
      u.text_content = li.text_content ∧
      (u.kind = .probe_answer ∨ u.kind = .user_interpretation) ∧
      (r.kind = .ai_feedback ∨ r.kind = .ai_image)) ∧
    (api_retry_last_message s env).2.isSome = true := by
  have hretry : api_retry_last_message s env =
      handle_chat_response { s with interactions := s.interactions.dropLast }
        li.text_content none env := by
    unfold api_retry_last_message
    cases hgl : s.interactions.getLast? with
    | none => rw [hgl] at hlast; cases hlast
    | some li2 =>
        rw [hgl] at hlast
        injection hlast with hli
        subst hli
        split
        · rename_i li3 heq
          injection heq with heq2
          subst heq2
          split
          · rfl
          · rename_i hcon
            exact absurd hkind hcon
        · rename_i heq
          simp at heq
  rw [hretry]
  rw [handle_visual_eq { s with interactions := s.interactions.dropLast }
    li.text_content env a hstat htop ht h1 h2 h3 ha]
  obtain ⟨u, r, he, hut, huk, hrk, hsome⟩ :=
    dispatch_two
      (appendI { s with interactions := s.interactions.dropLast }
        (userTurnKind ({ s with interactions := s.interactions.dropLast
          } : State).interactions.getLast?) li.text_content none none)
      li.text_content a env
      (show _ = s.interactions.dropLast ++
        [{ id := s.nextId, kind := userTurnKind (s.interactions.dropLast).getLast?,
           text_content := li.text_content, image_url := none, image_prompt := none,
           is_passed := false }] from rfl) hi
  refine ⟨⟨u, r, he, ?_, ?_, hrk⟩, hsome⟩
  · exact hut
  · rw [huk]
    exact userTurnKind_cases _

/-- Claim C6 witness: the amended theorem at the concrete state rolled1 with
a probe_deeper classification. -/
theorem C6_witness :
    (∃ u r, (api_retry_last_message rolled1 envProbe).1.interactions =
        rolled1.interactions.dropLast ++ [u, r] ∧
      u.text_content = ("为什么天是蓝色的") ∧
      (u.kind = .probe_answer ∨ u.kind = .user_interpretation) ∧
      (r.kind = .ai_feedback ∨ r.kind = .ai_image)) ∧
    (api_retry_last_message rolled1 envProbe).2.isSome = true :=
  C6_retry_amended rolled1 envProbe
    { id := 1, kind := .question, text_content := "为什么天是蓝色的" }
    { intent := "probe_deeper", visual_guide_text := "那你觉得雨后的天空为什么更蓝？" }
    (by decide) (by decide) (by decide) (by decide) (by decide) (by decide)
    (by decide) (by decide) rfl (Or.inl rfl)

end ThinkFirst
